import Mathlib

/-!
Verification of the automation orchestration subsystem of the
SpaceTraders UI/API repository against its natural-language specification.

The Lean definitions below are a shallow embedding of the Python sources in
`src/automation/` (`manager.py`, `ship_automation.py`, `contract_automation.py`,
`navigation.py`).  Pure computations are translated as Lean functions; the
stateful run loops are translated as explicit state-passing functions driven by
a schedule of externally-determined tick outcomes; machine floats appearing in
threshold comparisons (`capacity * 0.3`, `capacity * 0.9`, ...) are read as
exact rational arithmetic; Python exceptions are modelled with `Option`
(`none` = the call raised).

The typed data-transfer records (`spacetraders_client.models`) are not present
under `src/`; the record types below are modelled from the specification's
data-model section (they are plain data carriers; every function body is
translated from the Python under `src/automation/`).
-/

/-! ## Data model (records) -/

/-- Modelled from the spec: ship fuel record of `spacetraders_client.models`
(`fuel (current/capacity)`); the module itself is absent from `src/`. -/
structure ShipFuel where
  current : Nat
  capacity : Nat
deriving DecidableEq, Repr

/-- Modelled from the spec: ship cargo record of `spacetraders_client.models`
(`cargo (used/capacity, set of {item symbol, quantity})`). -/
structure ShipCargo where
  units : Nat
  capacity : Nat
  inventory : List (String × Nat)
deriving DecidableEq, Repr

/-- Modelled from the spec: the navigation sub-record of a ship snapshot
(`navigation status ... with current waypoint, system`). The status field
holds the remote service's status strings `"DOCKED"`, `"IN_ORBIT"`,
`"IN_TRANSIT"`. -/
structure ShipNav where
  waypointSymbol : String
  systemSymbol : String
  status : String
deriving DecidableEq, Repr

/-- Modelled from the spec: one delivery requirement of a contract
(`{trade item symbol, destination waypoint, units required, units fulfilled}`). -/
structure ContractDeliverGood where
  tradeSymbol : String
  destinationSymbol : String
  unitsRequired : Nat
  unitsFulfilled : Nat
deriving DecidableEq, Repr

/-- Modelled from the spec: a contract snapshot (`identity, faction, type,
acceptance/fulfillment flags, a deadline (absolute time), and an ordered list
of delivery requirements`).  The deadline is an absolute timestamp modelled as
an integer; `deliver` is the (possibly empty) requirement list
(`contract.terms.deliver`, with Python `None` folded into `[]` as the code
only ever tests its truthiness). -/
structure ContractM where
  id : String
  ctype : String
  accepted : Bool
  fulfilled : Bool
  deadline : Int
  deliver : List ContractDeliverGood
deriving DecidableEq, Repr

/-- Modelled from the spec: a waypoint (`identity, integer (x,y) coordinates,
type tag, and a set of trait tags`). -/
structure WaypointM where
  symbol : String
  x : Int
  y : Int
  wtype : String
  traits : List String
deriving DecidableEq, Repr

/-! ## Substring capability test

`ship_automation.py` / `contract_automation.py`, `_can_ship_mine`:
`"MINING" in mount.symbol or "LASER" in mount.symbol` (Python substring
containment on strings). -/

/-- Python `needle in hay` on character lists. -/
def charsInfix (needle : List Char) : List Char → Bool
  | [] => needle.isPrefixOf []
  | c :: rest => needle.isPrefixOf (c :: rest) || charsInfix needle rest

/-- Python substring containment `needle in hay` on strings. -/
def strContains (hay needle : String) : Bool :=
  charsInfix needle.toList hay.toList

/-- `ShipAutomation._can_ship_mine` (ship_automation.py lines 309-319) and the
identical `ContractAutomation._can_ship_mine` (contract_automation.py lines
301-311): no mounts means no mining; otherwise any mount whose symbol contains
`MINING` or `LASER` qualifies. -/
def can_ship_mine (mounts : List String) : Bool :=
  mounts.any (fun m => strContains m "MINING" || strContains m "LASER")

/-! ## The run loop error accounting (ship_automation.py lines 60-109,
contract_automation.py lines 40-101)

Both `run_automation` loops have the identical error policy: each loop
iteration either completes its tick normally, or raises, in which case
`self.error_count += 1` and the loop breaks when `self.error_count >= 5`.
The counter is never reset.  We model the environment's behaviour as a
schedule `List Bool` (`true` = the tick body succeeds, `false` = it raises a
classified or unclassified error); the schedule running out models an external
stop/cancellation.

`run_automation_loop sched errs` returns
`(number of ticks executed, final error_count, error_count after each tick)`. -/

def run_automation_loop : List Bool → Nat → Nat × Nat × List Nat
  | [], errs => (0, errs, [])
  | ok :: rest, errs =>
    if ok then
      let r := run_automation_loop rest errs
      (r.1 + 1, r.2.1, errs :: r.2.2)
    else
      let e2 := errs + 1
      if 5 ≤ e2 then (1, e2, [e2])
      else
        let r := run_automation_loop rest e2
        (r.1 + 1, r.2.1, e2 :: r.2.2)

/-- `AutomationManager._monitor_ship_automations` (manager.py line 259) and
`_monitor_contract_automations` (line 273): the self-healing restart fires
exactly when `automation.error_count > 5`. -/
def monitor_restart_needed (error_count : Nat) : Bool :=
  5 < error_count

/-! ## Cooldown gate (ship_automation.py lines 60-81 and 111-120)

The loop head: `if self.ship.cooldown and self.ship.cooldown.remainingSeconds
> 0: await self._handle_cooldown(); continue`.  `_handle_cooldown` sleeps
`min(cooldown_seconds + 1, 60)` and the `continue` restarts the tick before
any dispatch or error handling. -/

/-- `ShipAutomation._handle_cooldown` sleep amount:
`min(cooldown_seconds + 1, 60)`. -/
def handle_cooldown_sleep (remainingSeconds : Nat) : Nat :=
  min (remainingSeconds + 1) 60

/-- The cooldown gate at the head of the ship run loop: `some s` when the tick
restarts after sleeping `s` seconds, `none` when dispatch proceeds. -/
def cooldown_gate (cooldown : Option Nat) : Option Nat :=
  match cooldown with
  | some r => if 0 < r then some (handle_cooldown_sleep r) else none
  | none => none

/-- The ship automation state enum (`ShipAutomationState`). -/
inductive AutoState
  | idle
  | navigating
  | mining
  | trading
  | refueling
  | delivering
  | error
deriving DecidableEq, Repr

/-- One iteration of the ship run loop after the snapshot refresh, as far as
the cooldown gate, dispatch and error accounting determine the
automation-visible fields: result is `(current_status, error_count,
sleep seconds, whether a dispatch was attempted)`.  On a cooldown the loop
`continue`s (no dispatch, no status change, no error increment); on a
successful dispatch it sleeps 5 s; on an exception it records `ERROR`,
increments the counter and sleeps 60 s. -/
def ship_loop_iteration (status : AutoState) (err : Nat) (cooldown : Option Nat)
    (dispatchOk : Bool) (dispatchStatus : AutoState) :
    AutoState × Nat × Nat × Bool :=
  match cooldown_gate cooldown with
  | some s => (status, err, s, false)
  | none =>
    if dispatchOk then (dispatchStatus, err, 5, true)
    else (AutoState.error, err + 1, 60, true)

/-! ## Supervisor registry (manager.py lines 64-95)

`AutomationManager.automate_ship` fetches the ship (which may raise, caught and
turned into a `False` return), then unconditionally overwrites
`self.ship_automations[ship_symbol]`, adds to `active_ships`, spawns a fresh
`asyncio` task and overwrites `self.running_tasks["ship_" + ship_symbol]` with
the new task handle.  Nothing cancels a previously running task for the same
symbol; the old handle is simply lost.  We track every spawned and
never-cancelled task in `aliveTasks` as `(task id, task name)` pairs. -/

structure ManagerState where
  shipAutomationKeys : List String
  activeShips : List String
  runningTasks : String → Option Nat
  aliveTasks : List (Nat × String)
  nextTaskId : Nat

/-- Python `set.add`. -/
def setAdd (x : String) (s : List String) : List String :=
  if x ∈ s then s else x :: s

/-- `AutomationManager.automate_ship` (manager.py lines 64-95).  `fetchOk`
models whether `client.get_ship` succeeds; on failure the except-branches
return `False` leaving the state untouched. -/
def automate_ship (fetchOk : Bool) (ship_symbol : String) (st : ManagerState) :
    Bool × ManagerState :=
  if fetchOk then
    let taskName := "ship_" ++ ship_symbol
    let tid := st.nextTaskId
    (true,
      { shipAutomationKeys := setAdd ship_symbol st.shipAutomationKeys
        activeShips := setAdd ship_symbol st.activeShips
        runningTasks := fun n => if n = taskName then some tid else st.runningTasks n
        aliveTasks := st.aliveTasks ++ [(tid, taskName)]
        nextTaskId := tid + 1 })
  else (false, st)

/-- Number of spawned, never-cancelled automation tasks for a given ship. -/
def shipTaskCount (ship_symbol : String) (st : ManagerState) : Nat :=
  st.aliveTasks.countP (fun t => t.2 = "ship_" ++ ship_symbol)

/-- The empty manager registry (`AutomationManager.__init__`). -/
def initialManagerState : ManagerState :=
  { shipAutomationKeys := []
    activeShips := []
    runningTasks := fun _ => none
    aliveTasks := []
    nextTaskId := 0 }

/-! ## Navigation (navigation.py)

Remote calls issued by `NavigationHelper.navigate_to_waypoint` /
`_ensure_ship_status`.  `get_ship` is a read; `orbit`, `dock` and `navigate`
are the mutating calls. -/

inductive NavCall
  | getShip
  | orbit
  | dock
  | navigate (dest : String)
deriving DecidableEq, Repr

/-- Whether a remote call mutates remote state. -/
def navCallMutates : NavCall → Bool
  | NavCall.getShip => false
  | _ => true

/-- `NavigationHelper._ensure_ship_status` (navigation.py lines 72-100).
`currentStatus` is the status reported by the `get_ship` read performed at the
top of the method; the result is the returned boolean together with the list
of remote calls issued. -/
def ensure_ship_status (currentStatus requiredStatus : String) :
    Bool × List NavCall :=
  if currentStatus = requiredStatus then
    (true, [NavCall.getShip])
  else if requiredStatus = "DOCKED" ∧ currentStatus = "IN_ORBIT" then
    (true, [NavCall.getShip, NavCall.dock])
  else if requiredStatus = "IN_ORBIT" ∧ currentStatus = "DOCKED" then
    (true, [NavCall.getShip, NavCall.orbit])
  else
    (false, [NavCall.getShip])

/-- `NavigationHelper.navigate_to_waypoint` (navigation.py lines 22-70).
`refreshedStatus` is the status that the `get_ship` read inside
`_ensure_ship_status` reports when that helper runs (for a ship that is not
moved it equals `nav.status`).  The in-transit arrival wait only sleeps and is
call-free, so it does not appear in the call list. -/
def navigate_to_waypoint (nav : ShipNav) (target_waypoint required_status : String)
    (refreshedStatus : String) : Bool × List NavCall :=
  if nav.waypointSymbol = target_waypoint then
    ensure_ship_status refreshedStatus required_status
  else if nav.status = "IN_ORBIT" then
    let r := ensure_ship_status refreshedStatus required_status
    (r.1, NavCall.navigate target_waypoint :: r.2)
  else if nav.status = "DOCKED" then
    let r := ensure_ship_status refreshedStatus required_status
    (r.1, NavCall.orbit :: NavCall.navigate target_waypoint :: r.2)
  else
    (false, [])

/-- `NavigationHelper._calculate_distance` (navigation.py lines 238-240)
returns `math.sqrt((x2-x1)**2 + (y2-y1)**2)`; the loop in
`find_nearest_waypoint` only compares these values, and the real square root
is strictly monotone on non-negative reals, so the selection is embedded over
the exact squared distance. -/
def calculate_distance_sq (x1 y1 x2 y2 : Int) : Int :=
  (x2 - x1) ^ 2 + (y2 - y1) ^ 2

/-- The filter stage of `NavigationHelper.find_nearest_waypoint`
(navigation.py lines 126-137): an optional type filter and an optional trait
filter (`any(t.symbol == trait for t in full_waypoint.traits)`). -/
def matchesFilters (waypoint_type trait : Option String) (w : WaypointM) : Bool :=
  (match waypoint_type with
   | none => true
   | some t => w.wtype = t) &&
  (match trait with
   | none => true
   | some t => w.traits.any (fun s => s = t))

/-- The selection loop of `find_nearest_waypoint` (navigation.py lines
142-151): `min_distance` starts at infinity, so the first candidate is always
adopted, and a later candidate replaces the current best only when its
distance is strictly smaller. -/
def selectNearestFrom (sx sy : Int) (best : WaypointM) :
    List WaypointM → WaypointM
  | [] => best
  | w :: ws =>
    if calculate_distance_sq sx sy w.x w.y < calculate_distance_sq sx sy best.x best.y
    then selectNearestFrom sx sy w ws
    else selectNearestFrom sx sy best ws

/-- `NavigationHelper.find_nearest_waypoint` (navigation.py lines 102-156) on
the already-fetched data: ship position `(sx, sy)`, optional filters, and the
system's waypoint list; returns `None` when no candidate passes the filters.
(The final `_get_waypoint` re-fetch returns the cached record for the same
symbol.) -/
def find_nearest_waypoint (sx sy : Int) (waypoint_type trait : Option String)
    (waypoints : List WaypointM) : Option WaypointM :=
  match waypoints.filter (matchesFilters waypoint_type trait) with
  | [] => none
  | w :: ws => some (selectNearestFrom sx sy w ws)

/-- Reference function used to state the first-minimum property: scanning from
the right, keep the element with the strictly smaller squared distance,
preferring the earlier element on ties. -/
def firstMinBy (sx sy : Int) : List WaypointM → Option WaypointM
  | [] => none
  | w :: ws =>
    match firstMinBy sx sy ws with
    | none => some w
    | some b =>
      if calculate_distance_sq sx sy b.x b.y < calculate_distance_sq sx sy w.x w.y
      then some b
      else some w

/-- Combining step shared by the selection loop and the reference function:
replace the current best `b` by a candidate only when the candidate's squared
distance is strictly smaller. -/
def keepSmaller (sx sy : Int) (b : WaypointM) : Option WaypointM → WaypointM
  | none => b
  | some m =>
    if calculate_distance_sq sx sy m.x m.y < calculate_distance_sq sx sy b.x b.y
    then m else b

/-! ## Contract automation (contract_automation.py) -/

/-- Remote-service actions a contract tick can issue after its snapshot
refresh. -/
inductive CAction
  | acceptContract
  | assignShips
  | monitorDeliveries
deriving DecidableEq, Repr

/-- One iteration body of `ContractAutomation.run_automation`
(contract_automation.py lines 40-73) after the snapshot refresh: result is
`(some terminalStatus, actions)` when the loop breaks, `(none, actions)` when
it continues to the next tick.  Decision order: fulfilled → break
`"fulfilled"`; `datetime.now() > deadline` → break `"expired"`; not accepted →
accept and `continue`; no assigned ships → assign, then monitor; otherwise
monitor. -/
def contract_tick (c : ContractM) (now : Int) (shipsAssigned : Bool) :
    Option String × List CAction :=
  if c.fulfilled then (some "fulfilled", [])
  else if c.deadline < now then (some "expired", [])
  else if ¬ c.accepted then (none, [CAction.acceptContract])
  else if ¬ shipsAssigned then
    (none, [CAction.assignShips, CAction.monitorDeliveries])
  else (none, [CAction.monitorDeliveries])

/-- `ContractAutomation._update_progress` (contract_automation.py lines
313-326), with Python float division read as exact rational division:
an empty (or `None`) requirement list yields `1.0` iff the contract is
fulfilled; otherwise the ratio of summed fulfilled units to summed required
units, with `0.0` when the denominator is zero. -/
def update_progress (deliver : List ContractDeliverGood) (fulfilled : Bool) : ℚ :=
  if deliver = [] then (if fulfilled then 1 else 0)
  else
    let total_required : Nat := (deliver.map (fun d => d.unitsRequired)).sum
    let total_fulfilled : Nat := (deliver.map (fun d => d.unitsFulfilled)).sum
    if 0 < total_required then (total_fulfilled : ℚ) / (total_required : ℚ)
    else 0

/-! ## Status projections (`get_status`)

`ShipAutomation.get_status` (ship_automation.py lines 332-344) computes
`fuel_level = ship.fuel.current / ship.fuel.capacity if ship.fuel else 1.0`
and `cargo_level = ship.cargo.units / ship.cargo.capacity if ship.cargo else
0.0`.  Python integer `/` raises `ZeroDivisionError` on a zero denominator;
`none` models the raised exception. -/

/-- The `fuel_level` field of `ShipAutomation.get_status`. -/
def ship_fuel_level (fuel : Option ShipFuel) : Option ℚ :=
  match fuel with
  | none => some 1
  | some f => if f.capacity = 0 then none else some ((f.current : ℚ) / (f.capacity : ℚ))

/-- The `cargo_level` field of `ShipAutomation.get_status`. -/
def ship_cargo_level (cargo : Option ShipCargo) : Option ℚ :=
  match cargo with
  | none => some 0
  | some c => if c.capacity = 0 then none else some ((c.units : ℚ) / (c.capacity : ℚ))

/-- The numeric fields of `ShipAutomation.get_status`: `some (fuel_level,
cargo_level)` when the dict is built, `none` when building it raises. -/
def ship_get_status_levels (fuel : Option ShipFuel) (cargo : Option ShipCargo) :
    Option (ℚ × ℚ) :=
  match ship_fuel_level fuel, ship_cargo_level cargo with
  | some fl, some cl => some (fl, cl)
  | _, _ => none

/-- The per-delivery `progress` field of `ContractAutomation.get_status`
(contract_automation.py line 347): `unitsFulfilled / unitsRequired if
unitsRequired > 0 else 0.0` — the division is guarded. -/
def delivery_progress (d : ContractDeliverGood) : ℚ :=
  if 0 < d.unitsRequired then (d.unitsFulfilled : ℚ) / (d.unitsRequired : ℚ)
  else 0

/-! ## Ship dispatch trace (ship_automation.py lines 122-238)

`_mining_automation`, `_trading_automation`, `_contract_automation` and
`_general_automation` are mutually recursive through their fall-back calls
(in Python the recursion is unbounded, e.g. a mining-incapable ship with role
`EXCAVATOR`); the embedding takes a gas parameter and records the sequence of
assignments to `self.current_status` made during the dispatch. -/

/-- The environment a dispatch consults: the ship snapshot fields it reads and
the results of the navigation-helper queries it performs. -/
structure ShipEnv where
  mounts : List String
  role : Option String
  fuel : Option ShipFuel
  cargo : Option ShipCargo
  miningLocationsEmpty : Bool
  marketsEmpty : Bool
  hasAssignedContract : Bool
  assignedFulfilled : Bool
deriving DecidableEq, Repr

/-- `_general_automation` fuel check (ship_automation.py line 202):
`ship.fuel and ship.fuel.current < ship.fuel.capacity * 0.3`, read exactly. -/
def fuel_low (fuel : Option ShipFuel) : Bool :=
  match fuel with
  | none => false
  | some f => 10 * f.current < 3 * f.capacity

/-- Cargo threshold checks (ship_automation.py lines 133 and 207):
`ship.cargo and ship.cargo.units >= ship.cargo.capacity * (tenths/10)`,
read exactly. -/
def cargo_at_least (cargo : Option ShipCargo) (tenths : Nat) : Bool :=
  match cargo with
  | none => false
  | some c => tenths * c.capacity ≤ 10 * c.units

/-- Automation modes dispatched on by `run_automation`
(ship_automation.py lines 71-78). -/
inductive Mode
  | mining
  | trading
  | contract
  | general
deriving DecidableEq, Repr

/-- The sequence of `self.current_status` assignments performed by one
dispatch, with gas bounding the recursion depth (`autoTrace 0 _ _ = []` cuts
the otherwise unbounded Python recursion).

* mining (lines 122-154): set `MINING`; if the ship cannot mine fall back to
  general; if cargo ≥ 90% hand off to `_handle_full_cargo` (which sets
  `TRADING`); if no mining location is found fall back to general; otherwise
  navigate and mine with no further status assignment.
* trading (lines 156-175): set `TRADING`; if no market is found fall back to
  general; otherwise navigate with no further status assignment.
* contract (lines 177-195): set `DELIVERING`; with no assigned contract fall
  back to general; with a fulfilled assigned contract clear the assignment and
  fall back to general; otherwise deliver.
* general (lines 197-221): set `IDLE`; fuel < 30% → `_ensure_fuel` (sets
  `REFUELING`); cargo ≥ 80% → `_handle_full_cargo` (sets `TRADING`); role
  `EXCAVATOR`/`HARVESTER` → mining; role `HAULER`/`TRANSPORT` → trading;
  otherwise mining if capable else trading. -/
def autoTrace : Nat → Mode → ShipEnv → List AutoState
  | 0, _, _ => []
  | g + 1, Mode.mining, e =>
    AutoState.mining ::
      (if ¬ can_ship_mine e.mounts then autoTrace g Mode.general e
       else if cargo_at_least e.cargo 9 then [AutoState.trading]
       else if e.miningLocationsEmpty then autoTrace g Mode.general e
       else [])
  | g + 1, Mode.trading, e =>
    AutoState.trading ::
      (if e.marketsEmpty then autoTrace g Mode.general e else [])
  | g + 1, Mode.contract, e =>
    AutoState.delivering ::
      (if ¬ e.hasAssignedContract then autoTrace g Mode.general e
       else if e.assignedFulfilled then
         autoTrace g Mode.general { e with hasAssignedContract := false }
       else [])
  | g + 1, Mode.general, e =>
    AutoState.idle ::
      (if fuel_low e.fuel then [AutoState.refueling]
       else if cargo_at_least e.cargo 8 then [AutoState.trading]
       else if e.role = some "EXCAVATOR" ∨ e.role = some "HARVESTER" then
         autoTrace g Mode.mining e
       else if e.role = some "HAULER" ∨ e.role = some "TRANSPORT" then
         autoTrace g Mode.trading e
       else if can_ship_mine e.mounts then autoTrace g Mode.mining e
       else autoTrace g Mode.trading e)

/-! # Theorems -/

/-- Claim C1, counterexample: starting automation twice for ship `SHIP-1`
without an intervening stop does not fail — the second `automate_ship` call
returns `True` — and a second automation task is created while the first is
never cancelled, so two running tasks exist for the same ship identity. -/
theorem automate_ship_twice_cex :
    (automate_ship true "SHIP-1"
      (automate_ship true "SHIP-1" initialManagerState).2).1 = true ∧
    shipTaskCount "SHIP-1"
      (automate_ship true "SHIP-1"
        (automate_ship true "SHIP-1" initialManagerState).2).2 = 2 := by
  decide

/-- Claim C1 (amended): when the initial ship fetch succeeds, `automate_ship`
always returns success — there is no already-running check — and it overwrites
the registry entries and spawns one more task for the ship: the count of
spawned, never-cancelled tasks for that ship identity grows by one (the
previous task's handle is overwritten without cancellation), and the
`running_tasks` registry now maps the ship's task name to the fresh task. -/
theorem automate_ship_second_start (st : ManagerState) (sym : String) :
    (automate_ship true sym st).1 = true ∧
    shipTaskCount sym (automate_ship true sym st).2 = shipTaskCount sym st + 1 ∧
    (automate_ship true sym st).2.runningTasks ("ship_" ++ sym)
      = some st.nextTaskId := by
  refine ⟨rfl, ?_, ?_⟩
  · simp [automate_ship, shipTaskCount, List.countP_append, List.countP_cons]
  · simp [automate_ship]

/-- Claim C3: evaluation of `navigate_to_waypoint` at the two
already-at-destination inputs.  A ship docked at the target with `"DOCKED"`
required returns success having issued only the `get_ship` read; but a ship
in orbit at the target with `"ORBIT"` required returns failure, because
`_ensure_ship_status` compares the caller's string `"ORBIT"` against the
remote status string `"IN_ORBIT"` and no transition branch applies — even
though no mutating call is issued in either case. -/
theorem navigate_orbit_required_eval :
    (navigate_to_waypoint ⟨"X1-A1", "X1", "DOCKED"⟩ "X1-A1" "DOCKED" "DOCKED"
      = (true, [NavCall.getShip])) ∧
    (navigate_to_waypoint ⟨"X1-A1", "X1", "IN_ORBIT"⟩ "X1-A1" "ORBIT" "IN_ORBIT"
      = (false, [NavCall.getShip])) ∧
    navCallMutates NavCall.getShip = false := by
  decide

/-- Claim C5, counterexample: with a single delivery requirement of 1 required
and 2 fulfilled units, `_update_progress` computes 2.0 — the value is not
clamped to the interval [0,1]. -/
theorem update_progress_not_clamped_cex :
    update_progress [⟨"IRON_ORE", "X1-TEST", 1, 2⟩] false = 2 ∧
    ¬ update_progress [⟨"IRON_ORE", "X1-TEST", 1, 2⟩] false ≤ 1 := by
  norm_num [update_progress]

/-- Claim C5 (amended): the computed progress equals sum(units fulfilled) /
sum(units required) over all delivery requirements, with no clamping (0.0 when
the summed requirement is zero); when the requirement list is empty, progress
is 1.0 if the contract's fulfilled flag is true and 0.0 otherwise.  The value
is always non-negative, and it does not exceed 1 whenever every requirement
has fulfilled ≤ required — so the absent clamp only matters for
over-fulfilled data. -/
theorem update_progress_formula (deliver : List ContractDeliverGood) (fulfilled : Bool) :
    (deliver = [] → update_progress deliver fulfilled = (if fulfilled then 1 else 0)) ∧
    (deliver ≠ [] →
      update_progress deliver fulfilled =
        (if ((deliver.map (fun d => d.unitsRequired)).sum : ℕ) = 0 then 0
         else ((((deliver.map (fun d => d.unitsFulfilled)).sum : ℕ)) : ℚ)
            / ((((deliver.map (fun d => d.unitsRequired)).sum : ℕ)) : ℚ))) ∧
    0 ≤ update_progress deliver fulfilled ∧
    ((∀ d ∈ deliver, d.unitsFulfilled ≤ d.unitsRequired) →
      update_progress deliver fulfilled ≤ 1) := by
  refine ⟨fun h => by simp [update_progress, h], fun h => ?_, ?_, fun h => ?_⟩
  · simp only [update_progress, if_neg h]
    rcases Nat.eq_zero_or_pos ((deliver.map (fun d => d.unitsRequired)).sum) with h0 | h0
    · simp [h0]
    · rw [if_pos h0, if_neg (Nat.pos_iff_ne_zero.mp h0)]
  · simp only [update_progress]
    split_ifs
    · norm_num
    · norm_num
    · positivity
    · norm_num
  · simp only [update_progress]
    split_ifs with h1 h2 h3
    · norm_num
    · norm_num
    · rw [div_le_one (by exact_mod_cast h3)]
      have hsum : (deliver.map (fun d => d.unitsFulfilled)).sum
          ≤ (deliver.map (fun d => d.unitsRequired)).sum := by
        apply List.sum_le_sum
        intro d hd
        exact h d hd
      exact_mod_cast hsum
    · norm_num

/-- Claim C7: a contract whose deadline lies strictly in the past and whose
fulfilled flag is false makes the contract automation tick terminate
immediately with terminal status `"expired"`, issuing no accept-contract
call, no ship assignment, and no delivery action. -/
theorem contract_tick_expired (c : ContractM) (now : Int) (shipsAssigned : Bool)
    (hf : c.fulfilled = false) (hd : c.deadline < now) :
    contract_tick c now shipsAssigned = (some "expired", []) := by
  simp [contract_tick, hf, hd]

/-- Claim C7, witness: a concrete unfulfilled contract with deadline 0 ticked
at time 1 terminates as expired with no actions. -/
theorem contract_tick_expired_witness :
    contract_tick ⟨"C-1", "PROCUREMENT", false, false, 0, []⟩ 1 false
      = (some "expired", []) :=
  contract_tick_expired ⟨"C-1", "PROCUREMENT", false, false, 0, []⟩ 1 false rfl
    (by norm_num)

/-- Claim C8, counterexample: with 3 seconds of cooldown remaining the pilot
sleeps `min(3 + 1, 60) = 4` seconds, which exceeds the claimed bound
`min(cooldown, 60) = 3`. -/
theorem cooldown_sleep_bound_cex :
    cooldown_gate (some 3) = some 4 ∧ ¬ (4 ≤ min 3 60) := by
  decide

/-- Claim C8 (amended): for every tick in which the refreshed ship snapshot
reports a cooldown with remaining seconds greater than 0, the pilot sleeps
exactly `min(cooldown + 1, 60)` seconds — hence at most 60 seconds, one more
than the cooldown below that cap — and restarts the tick without dispatching
any action, leaving the automation state unchanged and not incrementing the
error counter. -/
theorem cooldown_tick_restart (status : AutoState) (err : Nat) (r : Nat)
    (dispatchOk : Bool) (dispatchStatus : AutoState) (h : 0 < r) :
    ship_loop_iteration status err (some r) dispatchOk dispatchStatus
      = (status, err, min (r + 1) 60, false) ∧
    min (r + 1) 60 ≤ 60 := by
  constructor
  · simp [ship_loop_iteration, cooldown_gate, handle_cooldown_sleep, h]
  · exact min_le_right _ _

/-- Claim C8, witness: a ship with 3 seconds of cooldown in state IDLE with no
errors restarts the tick unchanged after a 4-second sleep. -/
theorem cooldown_tick_restart_witness :
    ship_loop_iteration AutoState.idle 0 (some 3) true AutoState.mining
      = (AutoState.idle, 0, min (3 + 1) 60, false) ∧ min (3 + 1) 60 ≤ 60 :=
  cooldown_tick_restart AutoState.idle 0 3 true AutoState.mining (by norm_num)

/-- Claim C10, counterexample: a ship snapshot whose fuel record is present
with capacity 0 makes `get_status` raise `ZeroDivisionError` (modelled as
`none`): the division is guarded only by the presence of the record, not
against a zero capacity. -/
theorem get_status_zero_capacity_cex :
    ship_fuel_level (some ⟨0, 0⟩) = none ∧
    ship_get_status_levels (some ⟨0, 0⟩) none = none := by
  decide

/-- Claim C10 (amended): the status projections are read-only value
computations; ship `get_status` reports `fuel_level` exactly 1.0 when the
snapshot has no fuel record and `cargo_level` exactly 0.0 when it has no
cargo record, and it never raises provided every present fuel/cargo record
has a non-zero capacity (the divisions are guarded only by record presence);
the contract-side per-delivery progress is totally guarded and reports 0.0
whenever units required is 0. -/
theorem get_status_guarded (fuel : Option ShipFuel) (cargo : Option ShipCargo)
    (d : ContractDeliverGood)
    (hf : ∀ f, fuel = some f → f.capacity ≠ 0)
    (hc : ∀ c, cargo = some c → c.capacity ≠ 0) :
    (fuel = none → ship_fuel_level fuel = some 1) ∧
    (cargo = none → ship_cargo_level cargo = some 0) ∧
    (∃ p, ship_get_status_levels fuel cargo = some p) ∧
    (d.unitsRequired = 0 → delivery_progress d = 0) := by
  refine ⟨fun h => by simp [ship_fuel_level, h], fun h => by simp [ship_cargo_level, h],
    ?_, fun h => by simp [delivery_progress, h]⟩
  have hfl : ∃ q, ship_fuel_level fuel = some q := by
    cases fuel with
    | none => exact ⟨1, rfl⟩
    | some f =>
      exact ⟨(f.current : ℚ) / (f.capacity : ℚ), by simp [ship_fuel_level, hf f rfl]⟩
  have hcl : ∃ q, ship_cargo_level cargo = some q := by
    cases cargo with
    | none => exact ⟨0, rfl⟩
    | some c =>
      exact ⟨(c.units : ℚ) / (c.capacity : ℚ), by simp [ship_cargo_level, hc c rfl]⟩
  obtain ⟨qf, hqf⟩ := hfl
  obtain ⟨qc, hqc⟩ := hcl
  exact ⟨(qf, qc), by simp [ship_get_status_levels, hqf, hqc]⟩

/-- Claim C10, witness: a snapshot with no fuel record, no cargo record and a
zero-requirement delivery exercises all the guarded defaults. -/
theorem get_status_guarded_witness :
    (none = (none : Option ShipFuel) → ship_fuel_level none = some 1) ∧
    ((none : Option ShipCargo) = none → ship_cargo_level none = some 0) ∧
    (∃ p, ship_get_status_levels none none = some p) ∧
    ((⟨"IRON_ORE", "X1-TEST", 0, 3⟩ : ContractDeliverGood).unitsRequired = 0 →
      delivery_progress ⟨"IRON_ORE", "X1-TEST", 0, 3⟩ = 0) :=
  get_status_guarded none none ⟨"IRON_ORE", "X1-TEST", 0, 3⟩
    (fun f hf => by cases hf) (fun c hc => by cases hc)

/-- Helper: error accounting of the run loop, generalized over the error count
at entry.  With entry count below 5: the final count is the entry count plus
the number of failing ticks among the executed prefix; the count never passes
5; remaining schedule entries are abandoned only once the count has reached 5;
and a schedule with too few failures to reach the budget is executed whole. -/
theorem run_loop_invariant (sched : List Bool) :
    ∀ e0 : Nat, e0 < 5 →
      (run_automation_loop sched e0).2.1
        = e0 + ((sched.take (run_automation_loop sched e0).1).count false) ∧
      (run_automation_loop sched e0).2.1 ≤ 5 ∧
      ((run_automation_loop sched e0).1 < sched.length →
        (run_automation_loop sched e0).2.1 = 5) ∧
      (e0 + sched.count false < 5 →
        (run_automation_loop sched e0).1 = sched.length) := by
  induction sched with
  | nil =>
    intro e0 he
    refine ⟨by simp [run_automation_loop], by simp [run_automation_loop]; omega,
      by simp [run_automation_loop], by simp [run_automation_loop]⟩
  | cons ok rest ih =>
    intro e0 he
    cases ok with
    | true =>
      obtain ⟨h1, h2, h3, h4⟩ := ih e0 he
      simp only [run_automation_loop, if_true, List.take_succ_cons, List.count_cons,
        List.length_cons]
      refine ⟨?_, h2, fun hlt => h3 (by omega), fun hc => ?_⟩
      · simp only [h1]
        simp
      · have := h4 (by simp at hc; omega)
        omega
    | false =>
      by_cases h5 : 5 ≤ e0 + 1
      · simp only [run_automation_loop, Bool.false_eq_true, if_false, if_pos h5,
          List.take_succ_cons, List.count_cons, List.length_cons]
        refine ⟨by simp, by omega, fun _ => by omega, fun hc => ?_⟩
        exfalso
        simp at hc
        omega
      · have he2 : e0 + 1 < 5 := by omega
        obtain ⟨h1, h2, h3, h4⟩ := ih (e0 + 1) he2
        simp only [run_automation_loop, Bool.false_eq_true, if_false, if_neg h5,
          List.take_succ_cons, List.count_cons, List.length_cons]
        refine ⟨?_, h2, fun hlt => h3 (by omega), fun hc => ?_⟩
        · simp only [h1]
          simp
          omega
        · have := h4 (by simp at hc; omega)
          omega

/-- Claim C2, counterexample: with tick outcomes
`[fail, fail, fail, fail, success, fail, success]` there are never 5
consecutive failed ticks, and a successful tick occurs between the 4th and
5th failures — yet the loop terminates after the 6th tick (the error counter
is cumulative, not consecutive): only 6 of the 7 scheduled ticks execute and
the 7th is never attempted, refuting "a successful tick between failures
prevents termination". -/
theorem run_loop_success_between_failures_cex :
    (run_automation_loop [false, false, false, false, true, false, true] 0).1 = 6 ∧
    (run_automation_loop [false, false, false, false, true, false, true] 0).2.1 = 5 ∧
    ¬ (run_automation_loop [false, false, false, false, true, false, true] 0).1 = 7 := by
  decide

/-- Claim C2 (amended): the error counter is cumulative over the task's
lifetime — it counts every failed tick and is never reset by a success.  The
run loop terminates as soon as the total reaches 5: the final counter equals
the number of failures among the executed ticks, never exceeds 5, equals
exactly 5 whenever the loop abandoned remaining scheduled ticks (no further
tick is attempted, and the last reported error counter is 5 ≥ 5), and a
schedule with fewer than 5 failures in total runs to completion.  In
particular 5 consecutive failing ticks from the start terminate the loop
after exactly those 5 ticks with counter 5. -/
theorem run_loop_error_budget (sched rest : List Bool) :
    ((run_automation_loop sched 0).2.1
      = ((sched.take (run_automation_loop sched 0).1).count false)) ∧
    (run_automation_loop sched 0).2.1 ≤ 5 ∧
    ((run_automation_loop sched 0).1 < sched.length →
      (run_automation_loop sched 0).2.1 = 5) ∧
    (sched.count false < 5 → (run_automation_loop sched 0).1 = sched.length) ∧
    run_automation_loop (List.replicate 5 false ++ rest) 0 = (5, 5, [1, 2, 3, 4, 5]) := by
  obtain ⟨h1, h2, h3, h4⟩ := run_loop_invariant sched 0 (by norm_num)
  refine ⟨by simpa using h1, h2, h3, fun hc => h4 (by simpa using hc), ?_⟩
  show run_automation_loop (false :: false :: false :: false :: false :: rest) 0 = _
  norm_num [run_automation_loop]

/-- Claim C2, witness for the amended theorem: a schedule of five failures
followed by a success stops after 5 ticks (5 < 6 scheduled), and the theorem
yields the terminal counter value 5. -/
theorem run_loop_error_budget_witness :
    (run_automation_loop [false, false, false, false, false, true] 0).2.1 = 5 :=
  (run_loop_error_budget [false, false, false, false, false, true] []).2.2.1 (by decide)

/-- Helper: every error-counter value recorded along the run loop trace stays
at most 5 when the loop entered with a count below 5. -/
theorem run_loop_trace_bound (sched : List Bool) :
    ∀ e0 : Nat, e0 < 5 → ∀ c ∈ (run_automation_loop sched e0).2.2, c ≤ 5 := by
  induction sched with
  | nil =>
    intro e0 _ c hc
    simp [run_automation_loop] at hc
  | cons ok rest ih =>
    intro e0 he c hc
    cases ok with
    | true =>
      simp only [run_automation_loop, if_true, List.mem_cons] at hc
      rcases hc with rfl | hc
      · omega
      · exact ih e0 he c hc
    | false =>
      by_cases h5 : 5 ≤ e0 + 1
      · simp only [run_automation_loop, Bool.false_eq_true, if_false, if_pos h5,
          List.mem_singleton] at hc
        omega
      · simp only [run_automation_loop, Bool.false_eq_true, if_false, if_neg h5,
          List.mem_cons] at hc
        rcases hc with rfl | hc
        · omega
        · exact ih (e0 + 1) (by omega) c hc

/-- Claim C9: for every schedule of tick outcomes, every value taken by a
ship or contract automation's error counter — its initial 0 and each value
reported after a tick — is at most 5 (the loop stops as soon as 5 is
reached), so the manager's health-monitor restart condition
`error_count > 5` is false at every such value: the stop-and-restart
self-healing branch can never fire for a live automation instance. -/
theorem error_counter_monitor_unreachable (sched : List Bool) :
    ∀ c ∈ (0 : Nat) :: (run_automation_loop sched 0).2.2,
      c ≤ 5 ∧ monitor_restart_needed c = false := by
  intro c hc
  have hb : c ≤ 5 := by
    rcases List.mem_cons.mp hc with rfl | h
    · omega
    · exact run_loop_trace_bound sched 0 (by norm_num) c h
  have hno : ¬ (5 < c) := by omega
  exact ⟨hb, by simp [monitor_restart_needed, hno]⟩

/-- Claim C9, witness: after a single failing tick the counter value 1 is
below the threshold and the monitor would not restart. -/
theorem error_counter_monitor_unreachable_witness :
    (1 : Nat) ≤ 5 ∧ monitor_restart_needed 1 = false :=
  error_counter_monitor_unreachable [false] 1 (by decide)

/-- Helper: for a mining-incapable ship whose advisory role is neither
`EXCAVATOR` nor `HARVESTER`, neither the general nor the trading dispatch
trace ever records the MINING state (they only recurse into each other). -/
theorem autoTrace_no_mining (g : Nat) :
    ∀ e : ShipEnv, can_ship_mine e.mounts = false →
      e.role ≠ some "EXCAVATOR" → e.role ≠ some "HARVESTER" →
      AutoState.mining ∉ autoTrace g Mode.general e ∧
      AutoState.mining ∉ autoTrace g Mode.trading e := by
  induction g with
  | zero =>
    intro e _ _ _
    exact ⟨by simp [autoTrace], by simp [autoTrace]⟩
  | succ g ih =>
    intro e h1 h2 h3
    obtain ⟨ihg, iht⟩ := ih e h1 h2 h3
    constructor
    · simp only [autoTrace]
      intro hmem
      rcases List.mem_cons.mp hmem with h | h
      · cases h
      · split_ifs at h with hfu hca hro hro2 hcm
        · simp at h
        · simp at h
        · rcases hro with hro | hro
          · exact h2 hro
          · exact h3 hro
        · exact iht h
        · rw [h1] at hcm
          cases hcm
        · exact iht h
    · simp only [autoTrace]
      intro hmem
      rcases List.mem_cons.mp hmem with h | h
      · cases h
      · split_ifs at h with hm
        · exact ihg h
        · simp at h

/-- Claim C4, counterexample: a ship with an empty mount set (hence no
mount symbol containing MINING or LASER) whose advisory role is `EXCAVATOR`
is dispatched by general-mode logic into `_mining_automation`, which assigns
the MINING state *before* its capability check — the trace of a general
dispatch contains MINING, and a direct mining-mode invocation records MINING
as its first status even though the ship cannot mine. -/
theorem general_dispatch_mining_state_cex :
    can_ship_mine ([] : List String) = false ∧
    AutoState.mining ∈ autoTrace 2 Mode.general
      ⟨[], some "EXCAVATOR", none, none, true, true, false, false⟩ ∧
    AutoState.mining ∈ autoTrace 1 Mode.mining
      ⟨[], some "EXCAVATOR", none, none, true, true, false, false⟩ := by
  decide

/-- Claim C4 (amended): for every ship whose mount set contains no symbol
matching a mining-capability pattern *and whose advisory role is neither
`EXCAVATOR` nor `HARVESTER`*, general-mode dispatch never puts the automation
into the MINING state; however, mining automation invoked on such a ship
assigns the MINING state first and only then detects the missing capability
and falls back to general dispatch (so for mining-incapable ships with role
`EXCAVATOR`/`HARVESTER`, general dispatch transiently records MINING via that
re-entry). -/
theorem general_dispatch_no_mining (g : Nat) (e : ShipEnv)
    (hmine : can_ship_mine e.mounts = false)
    (hexc : e.role ≠ some "EXCAVATOR") (hharv : e.role ≠ some "HARVESTER") :
    AutoState.mining ∉ autoTrace g Mode.general e ∧
    autoTrace (g + 1) Mode.mining e = AutoState.mining :: autoTrace g Mode.general e := by
  refine ⟨(autoTrace_no_mining g e hmine hexc hharv).1, ?_⟩
  simp [autoTrace, hmine]

/-- Claim C4, witness: a roleless ship with no mounts never shows MINING in
its general dispatch trace, and its mining-mode trace is MINING followed by
the general fallback. -/
theorem general_dispatch_no_mining_witness :
    AutoState.mining ∉ autoTrace 3 Mode.general
      ⟨[], none, none, none, true, true, false, false⟩ ∧
    autoTrace (3 + 1) Mode.mining ⟨[], none, none, none, true, true, false, false⟩
      = AutoState.mining ::
        autoTrace 3 Mode.general ⟨[], none, none, none, true, true, false, false⟩ :=
  general_dispatch_no_mining 3 ⟨[], none, none, none, true, true, false, false⟩
    rfl (by decide) (by decide)

/-- Helper: unfolding of the reference first-minimum function on a cons. -/
theorem firstMinBy_cons (sx sy : Int) (w : WaypointM) (ws : List WaypointM) :
    firstMinBy sx sy (w :: ws) = some (keepSmaller sx sy w (firstMinBy sx sy ws)) := by
  cases h : firstMinBy sx sy ws with
  | none => simp [firstMinBy, keepSmaller, h]
  | some m =>
    simp only [firstMinBy, keepSmaller, h]
    split_ifs <;> rfl

/-- Helper: the reference first-minimum function returns `none` exactly on the
empty list. -/
theorem firstMinBy_eq_none (sx sy : Int) (l : List WaypointM) :
    firstMinBy sx sy l = none ↔ l = [] := by
  cases l with
  | nil => simp [firstMinBy]
  | cons w ws => rw [firstMinBy_cons]; simp

/-- Helper: the source's selection loop (strict-improvement scan with an
initial best) agrees with the reference first-minimum function. -/
theorem selectNearestFrom_eq (sx sy : Int) (l : List WaypointM) :
    ∀ b : WaypointM,
      selectNearestFrom sx sy b l = keepSmaller sx sy b (firstMinBy sx sy l) := by
  induction l with
  | nil => intro b; rfl
  | cons w ws ih =>
    intro b
    rw [firstMinBy_cons]
    simp only [selectNearestFrom]
    cases hfm : firstMinBy sx sy ws with
    | none =>
      have ihw := ih w
      have ihb := ih b
      rw [hfm] at ihw ihb
      simp only [keepSmaller] at ihw ihb ⊢
      rw [ihw, ihb]
    | some m =>
      have ihw := ih w
      have ihb := ih b
      rw [hfm] at ihw ihb
      simp only [keepSmaller] at ihw ihb ⊢
      rw [ihw, ihb]
      by_cases h1 : calculate_distance_sq sx sy m.x m.y
          < calculate_distance_sq sx sy w.x w.y
      · simp only [if_pos h1]
        split_ifs <;> first | rfl | (exfalso; omega)
      · simp only [if_neg h1]
        split_ifs <;> first | rfl | (exfalso; omega)

/-- Helper: the reference first-minimum function returns an element of the
list that minimizes the squared distance, with every earlier element strictly
farther (first-encountered tie-break) and every later element no closer. -/
theorem firstMinBy_spec (sx sy : Int) (l : List WaypointM) :
    ∀ w, firstMinBy sx sy l = some w →
      ∃ l1 l2, l = l1 ++ w :: l2 ∧
        (∀ v ∈ l1, calculate_distance_sq sx sy w.x w.y
          < calculate_distance_sq sx sy v.x v.y) ∧
        (∀ v ∈ l2, calculate_distance_sq sx sy w.x w.y
          ≤ calculate_distance_sq sx sy v.x v.y) := by
  induction l with
  | nil => intro w h; simp [firstMinBy] at h
  | cons a as ih =>
    intro w h
    rw [firstMinBy_cons] at h
    cases hfm : firstMinBy sx sy as with
    | none =>
      rw [hfm] at h
      simp only [keepSmaller, Option.some.injEq] at h
      have has : as = [] := (firstMinBy_eq_none sx sy as).mp hfm
      subst has
      subst h
      exact ⟨[], [], rfl, by simp, by simp⟩
    | some m =>
      rw [hfm] at h
      simp only [keepSmaller, Option.some.injEq] at h
      obtain ⟨l1, l2, heq, hl1, hl2⟩ := ih m hfm
      by_cases hlt : calculate_distance_sq sx sy m.x m.y
          < calculate_distance_sq sx sy a.x a.y
      · rw [if_pos hlt] at h
        subst h
        refine ⟨a :: l1, l2, by simp [heq], ?_, hl2⟩
        intro v hv
        rcases List.mem_cons.mp hv with rfl | hv
        · exact hlt
        · exact hl1 v hv
      · rw [if_neg hlt] at h
        subst h
        refine ⟨[], as, rfl, by simp, ?_⟩
        intro v hv
        rw [heq] at hv
        have hwm : calculate_distance_sq sx sy a.x a.y
            ≤ calculate_distance_sq sx sy m.x m.y := by omega
        rcases List.mem_append.mp hv with h1 | h2
        · have := hl1 v h1; omega
        · rcases List.mem_cons.mp h2 with rfl | h3
          · exact hwm
          · have := hl2 v h3; omega

/-- Helper: `find_nearest_waypoint` computes the reference first-minimum of
the filtered candidate list. -/
theorem find_nearest_eq_firstMinBy (sx sy : Int) (wt tr : Option String)
    (ws : List WaypointM) :
    find_nearest_waypoint sx sy wt tr ws
      = firstMinBy sx sy (ws.filter (matchesFilters wt tr)) := by
  unfold find_nearest_waypoint
  cases h : ws.filter (matchesFilters wt tr) with
  | nil => rfl
  | cons w l =>
    change some (selectNearestFrom sx sy w l) = firstMinBy sx sy (w :: l)
    rw [firstMinBy_cons, selectNearestFrom_eq]

/-- Helper: the integer squared distance, cast to the reals, is the square of
the Euclidean distance between the ship's position and the waypoint. -/
theorem dist_sq_cast (sx sy : Int) (w : WaypointM) :
    ((calculate_distance_sq sx sy w.x w.y : Int) : ℝ)
      = ((w.x : ℝ) - (sx : ℝ)) ^ 2 + ((w.y : ℝ) - (sy : ℝ)) ^ 2 := by
  unfold calculate_distance_sq
  push_cast
  ring

/-- Claim C6: over any candidate list, `find_nearest_waypoint` returns `none`
exactly when no candidate passes the optional type and trait filters, and
otherwise returns a filtered candidate whose Euclidean distance from the
ship's position is minimal among all filtered candidates, with every
earlier-encountered candidate strictly farther (ties break toward the
first-encountered candidate in enumeration order). -/
theorem find_nearest_waypoint_correct (sx sy : Int) (wt tr : Option String)
    (ws : List WaypointM) :
    (find_nearest_waypoint sx sy wt tr ws = none ↔
      ws.filter (matchesFilters wt tr) = []) ∧
    ∀ w, find_nearest_waypoint sx sy wt tr ws = some w →
      w ∈ ws.filter (matchesFilters wt tr) ∧
      (∀ v ∈ ws.filter (matchesFilters wt tr),
        Real.sqrt (((w.x : ℝ) - (sx : ℝ)) ^ 2 + ((w.y : ℝ) - (sy : ℝ)) ^ 2)
          ≤ Real.sqrt (((v.x : ℝ) - (sx : ℝ)) ^ 2 + ((v.y : ℝ) - (sy : ℝ)) ^ 2)) ∧
      ∃ l1 l2, ws.filter (matchesFilters wt tr) = l1 ++ w :: l2 ∧
        ∀ v ∈ l1,
          Real.sqrt (((w.x : ℝ) - (sx : ℝ)) ^ 2 + ((w.y : ℝ) - (sy : ℝ)) ^ 2)
            < Real.sqrt (((v.x : ℝ) - (sx : ℝ)) ^ 2 + ((v.y : ℝ) - (sy : ℝ)) ^ 2) := by
  constructor
  · rw [find_nearest_eq_firstMinBy]
    exact firstMinBy_eq_none sx sy _
  · intro w hw
    rw [find_nearest_eq_firstMinBy] at hw
    obtain ⟨l1, l2, heq, hl1, hl2⟩ := firstMinBy_spec sx sy _ w hw
    have hmem : w ∈ ws.filter (matchesFilters wt tr) := by
      rw [heq]
      exact List.mem_append.mpr (Or.inr (List.mem_cons_self w l2))
    have hle : ∀ v ∈ ws.filter (matchesFilters wt tr),
        calculate_distance_sq sx sy w.x w.y ≤ calculate_distance_sq sx sy v.x v.y := by
      intro v hv
      rw [heq] at hv
      rcases List.mem_append.mp hv with h1 | h2
      · have := hl1 v h1; omega
      · rcases List.mem_cons.mp h2 with rfl | h3
        · omega
        · exact hl2 v h3
    refine ⟨hmem, fun v hv => ?_, l1, l2, heq, fun v hv => ?_⟩
    · have h := hle v hv
      have hcast : ((w.x : ℝ) - (sx : ℝ)) ^ 2 + ((w.y : ℝ) - (sy : ℝ)) ^ 2
          ≤ ((v.x : ℝ) - (sx : ℝ)) ^ 2 + ((v.y : ℝ) - (sy : ℝ)) ^ 2 := by
        rw [← dist_sq_cast, ← dist_sq_cast]
        exact_mod_cast h
      exact Real.sqrt_le_sqrt hcast
    · have h := hl1 v hv
      have hcast : ((w.x : ℝ) - (sx : ℝ)) ^ 2 + ((w.y : ℝ) - (sy : ℝ)) ^ 2
          < ((v.x : ℝ) - (sx : ℝ)) ^ 2 + ((v.y : ℝ) - (sy : ℝ)) ^ 2 := by
        rw [← dist_sq_cast, ← dist_sq_cast]
        exact_mod_cast h
      exact Real.sqrt_lt_sqrt (by positivity) hcast

/-- Claim C6, witness: for the specification's example — candidates at
(0,0), (3,4), (1,1) with the ship at (0,0) and no filters — the returned
nearest waypoint is the one at (0,0), a member of the filtered candidates. -/
theorem find_nearest_waypoint_correct_witness :
    (⟨"A", 0, 0, "PLANET", []⟩ : WaypointM) ∈
      ([⟨"A", 0, 0, "PLANET", []⟩, ⟨"B", 3, 4, "PLANET", []⟩,
        ⟨"C", 1, 1, "PLANET", []⟩] : List WaypointM).filter
        (matchesFilters none none) :=
  ((find_nearest_waypoint_correct 0 0 none none
      [⟨"A", 0, 0, "PLANET", []⟩, ⟨"B", 3, 4, "PLANET", []⟩,
       ⟨"C", 1, 1, "PLANET", []⟩]).2
    ⟨"A", 0, 0, "PLANET", []⟩ (by decide)).1

/-- Claim C5, witness: a single requirement of 2 required / 1 fulfilled units
has fulfilled ≤ required, so the amended formula bounds progress by 1. -/
theorem update_progress_formula_witness :
    update_progress [⟨"IRON_ORE", "X1-TEST", 2, 1⟩] false ≤ 1 :=
  (update_progress_formula [⟨"IRON_ORE", "X1-TEST", 2, 1⟩] false).2.2.2 (by decide)
